import Mathlib

/-!
Verification of the VL53L5CX platform/glue layer (src/platform.h, src/wrap.h,
src/fake/stdint.h) against its specification.

The repository is a C header surface: an opaque platform handle, six callback
declarations the vendor driver invokes, and constant/enum re-exports.  The
embedding below models the C type widths and declarations from the source
headers; operations whose implementations the repository only declares are
modelled from the specification, as marked in their doc comments.
-/

namespace VL53L5CX

/-- C types occurring in the callback declarations of src/platform.h,
as typedef-ed by src/fake/stdint.h for the riscv32 target. -/
inductive CType where
  | u8 : CType
  | u16 : CType
  | u32 : CType
  | i8 : CType
  | i16 : CType
  | void : CType
  | platform : CType
  | ptr : CType → CType
  deriving DecidableEq

/-- Bit width of a scalar C type on the riscv32 target
(pointers are 32-bit; the opaque platform struct is not scalar). -/
def CType.width : CType → Nat
  | .u8 => 8
  | .u16 => 16
  | .u32 => 32
  | .i8 => 8
  | .i16 => 16
  | .void => 0
  | .platform => 0
  | .ptr _ => 32

/-- A C function declaration: name, argument types in order, return type. -/
structure CSig where
  name : String
  args : List CType
  ret : CType
  deriving DecidableEq

/-- Declaration of VL53L5CX_RdByte in src/platform.h:
uint8_t VL53L5CX_RdByte(VL53L5CX_Platform *p_platform, uint16_t addr, uint8_t *p_out). -/
def rdByteSig : CSig :=
  ⟨"VL53L5CX_RdByte", [.ptr .platform, .u16, .ptr .u8], .u8⟩

/-- Declaration of VL53L5CX_WrByte in src/platform.h:
uint8_t VL53L5CX_WrByte(VL53L5CX_Platform *p_platform, uint16_t addr, uint8_t value). -/
def wrByteSig : CSig :=
  ⟨"VL53L5CX_WrByte", [.ptr .platform, .u16, .u8], .u8⟩

/-- Declaration of VL53L5CX_RdMulti in src/platform.h:
uint8_t VL53L5CX_RdMulti(VL53L5CX_Platform *p_platform, uint16_t addr, uint8_t *p_out, uint32_t size). -/
def rdMultiSig : CSig :=
  ⟨"VL53L5CX_RdMulti", [.ptr .platform, .u16, .ptr .u8, .u32], .u8⟩

/-- Declaration of VL53L5CX_WrMulti in src/platform.h:
uint8_t VL53L5CX_WrMulti(VL53L5CX_Platform *p_platform, uint16_t addr, uint8_t *p_values, uint32_t size). -/
def wrMultiSig : CSig :=
  ⟨"VL53L5CX_WrMulti", [.ptr .platform, .u16, .ptr .u8, .u32], .u8⟩

/-- Declaration of VL53L5CX_SwapBuffer in src/platform.h:
void VL53L5CX_SwapBuffer(uint8_t *buffer, uint16_t size). -/
def swapBufferSig : CSig :=
  ⟨"VL53L5CX_SwapBuffer", [.ptr .u8, .u16], .void⟩

/-- Declaration of VL53L5CX_WaitMs in src/platform.h:
uint8_t VL53L5CX_WaitMs(VL53L5CX_Platform *p_platform, uint32_t ms). -/
def waitMsSig : CSig :=
  ⟨"VL53L5CX_WaitMs", [.ptr .platform, .u32], .u8⟩

/-- The six callback declarations of src/platform.h, in source order. -/
def callbackSigs : List CSig :=
  [rdByteSig, wrByteSig, rdMultiSig, wrMultiSig, swapBufferSig, waitMsSig]

/-! Platform handle layout.

src/platform.h lines 41-43:
  typedef struct { _Alignas(8) uint8_t _[20]; } VL53L5CX_Platform;
-/

/-- Number of uint8_t elements in the member array of VL53L5CX_Platform. -/
def platformArrayLen : Nat := 20

/-- Alignment of VL53L5CX_Platform, forced by _Alignas(8) on its member. -/
def platformAlign : Nat := 8

/-- Round n up to the next multiple of a (C struct size padding rule). -/
def roundUp (n a : Nat) : Nat := ((n + a - 1) / a) * a

/-- sizeof(VL53L5CX_Platform): the 20-byte member array padded up to the
struct alignment of 8, per the C layout rule (sizeof is a multiple of
alignof); the source comment records that clang 18.1.3 makes it 24 bytes. -/
def platformSizeof : Nat := roundUp platformArrayLen platformAlign

/-- A concrete platform-state representation of size sz and alignment al
fits the reserved opaque region. -/
def stateFits (sz al : Nat) : Prop := sz ≤ platformSizeof ∧ al ≤ platformAlign

/-- Build-time check of the sizing invariant: a closed boolean computation,
evaluable during compilation (the C side uses sizeof in a static check, the
spec mandates a build-time failure rather than a runtime error). -/
def checkFits (sz al : Nat) : Bool :=
  decide (sz ≤ platformSizeof) && decide (al ≤ platformAlign)

/-! Callback behaviour.

src/platform.h only declares the six callbacks; their implementations live
outside the repository (they are supplied by the binding side).  The
operations below are therefore modelled from the spec, over explicit state:
a buffer is a list of byte values, the device is a map from register
addresses to byte values, and time is an explicit millisecond clock. -/

/-- Modelled from the spec: the implementation of VL53L5CX_SwapBuffer is not in
the repository (src/platform.h only declares it).  Per the spec and the header
doc comment, it reverses the byte order within each 4-byte group
(ABCD becomes DCBA); the buffer length plays the role of the size argument,
and a trailing fragment shorter than 4 bytes (undefined behaviour per the
spec, which requires a multiple of 4) is left unchanged in the model. -/
def swapBuffer : List Nat → List Nat
  | a :: b :: c :: d :: rest => d :: c :: b :: a :: swapBuffer rest
  | rest => rest

/-- Helper for the rdMulti model: overwrite the first size bytes of the
buffer with consecutive device-register reads starting at addr. -/
def rdFill (dev : Nat → Nat) (addr : Nat) : Nat → List Nat → List Nat
  | 0, buf => buf
  | _ + 1, [] => []
  | s + 1, _ :: rest => dev addr :: rdFill dev (addr + 1) s rest

/-- Modelled from the spec: the implementation of VL53L5CX_RdMulti is not in
the repository (src/platform.h only declares it).  Per the spec, it reads
exactly size bytes from consecutive device registers starting at addr into
the caller buffer, touches no byte of the buffer at or beyond index size,
and returns status 0. -/
def rdMulti (dev : Nat → Nat) (addr : Nat) (size : Nat) (buf : List Nat) :
    List Nat × Nat :=
  (rdFill dev addr size buf, 0)

/-- Modelled from the spec: the implementation of VL53L5CX_WrMulti is not in
the repository (src/platform.h only declares it).  Per the spec, it writes
exactly size bytes from the caller buffer to consecutive device registers
starting at addr, reads no byte of the buffer at or beyond index size, and
returns status 0.  The new device map is the result state. -/
def wrMulti (dev : Nat → Nat) (addr : Nat) (size : Nat) (buf : List Nat) :
    (Nat → Nat) × Nat :=
  (fun a => if addr ≤ a ∧ a < addr + size then buf.getD (a - addr) 0 else dev a, 0)

/-- Modelled from the spec: the implementation of VL53L5CX_WaitMs is not in
the repository (src/platform.h only declares it).  Time is an explicit
millisecond clock; the wait blocks the caller from now until now + ms and
returns status 0 exactly when the wait finished, which in the model it
always does. -/
def waitMs (now ms : Nat) : Nat × Nat := (now + ms, 0)

/-! Constant and enum surface (src/wrap.h).

The vendor header vl53l5cx_api.h is not in the repository; the numeric
values of its macros are recorded by the spec and by the comments in
src/wrap.h, and are modelled from those. -/

/-- Modelled from the spec: vendor macro VL53L5CX_STATUS_OK (vendor header
not in the repository; value 0 per the spec and the src/wrap.h comment). -/
def VL53L5CX_STATUS_OK : Nat := 0

/-- Modelled from the spec: vendor macro VL53L5CX_STATUS_ERROR (vendor header
not in the repository; value 255 per the spec and the src/wrap.h comment). -/
def VL53L5CX_STATUS_ERROR : Nat := 255

/-- Modelled from the spec: vendor macro VL53L5CX_STATUS_INVALID_PARAM (vendor
header not in the repository; value 127 per the spec and the src/wrap.h
comment). -/
def VL53L5CX_STATUS_INVALID_PARAM : Nat := 127

/-- Status constants actually exported (declared as const uint8_t) by
src/wrap.h: ST_OK and ST_ERROR.  The finer-grained ones, including
INVALID_PARAM, are commented out in the source ("not passed") and hence
not exported. -/
def exportedStatusConstants : List (String × Nat) :=
  [("ST_OK", VL53L5CX_STATUS_OK), ("ST_ERROR", VL53L5CX_STATUS_ERROR)]

/-- Status values documented in the doc comment of src/wrap.h (the official
table: 0 no error, 127 invalid value from the application, 255 major error). -/
def documentedStatusValues : List Nat := [0, 127, 255]

/-- Modelled from the spec: vendor macro VL53L5CX_RESOLUTION_4X4, the
16-target resolution value (value 16 per the spec and src/wrap.h comment). -/
def VL53L5CX_RESOLUTION_4X4 : Nat := 16

/-- Modelled from the spec: vendor macro VL53L5CX_RESOLUTION_8X8, the
64-target resolution value (value 64 per the spec and src/wrap.h comment). -/
def VL53L5CX_RESOLUTION_8X8 : Nat := 64

/-- Modelled from the spec: vendor macro VL53L5CX_TARGET_ORDER_CLOSEST
(value 1 per the spec and src/wrap.h comment). -/
def VL53L5CX_TARGET_ORDER_CLOSEST : Nat := 1

/-- Modelled from the spec: vendor macro VL53L5CX_TARGET_ORDER_STRONGEST
(value 2 per the spec and src/wrap.h comment). -/
def VL53L5CX_TARGET_ORDER_STRONGEST : Nat := 2

/-- Modelled from the spec: vendor macro VL53L5CX_RANGING_MODE_CONTINUOUS
(value 1 per the spec and src/wrap.h comment). -/
def VL53L5CX_RANGING_MODE_CONTINUOUS : Nat := 1

/-- Modelled from the spec: vendor macro VL53L5CX_RANGING_MODE_AUTONOMOUS
(value 3 per the spec and src/wrap.h comment). -/
def VL53L5CX_RANGING_MODE_AUTONOMOUS : Nat := 3

/-- Modelled from the spec: vendor macro VL53L5CX_POWER_MODE_SLEEP
(value 0 per the spec and src/wrap.h comment). -/
def VL53L5CX_POWER_MODE_SLEEP : Nat := 0

/-- Modelled from the spec: vendor macro VL53L5CX_POWER_MODE_WAKEUP
(value 1 per the spec and src/wrap.h comment). -/
def VL53L5CX_POWER_MODE_WAKEUP : Nat := 1

/-- enum Resolution of src/wrap.h. -/
inductive Resolution where
  | _4X4 : Resolution
  | _8X8 : Resolution
  deriving DecidableEq

/-- Numeric value of each Resolution member, as bound in src/wrap.h. -/
def Resolution.val : Resolution → Nat
  | ._4X4 => VL53L5CX_RESOLUTION_4X4
  | ._8X8 => VL53L5CX_RESOLUTION_8X8

/-- enum TargetOrder of src/wrap.h. -/
inductive TargetOrder where
  | CLOSEST : TargetOrder
  | STRONGEST : TargetOrder
  deriving DecidableEq

/-- Numeric value of each TargetOrder member, as bound in src/wrap.h. -/
def TargetOrder.val : TargetOrder → Nat
  | .CLOSEST => VL53L5CX_TARGET_ORDER_CLOSEST
  | .STRONGEST => VL53L5CX_TARGET_ORDER_STRONGEST

/-- enum RangingMode of src/wrap.h. -/
inductive RangingMode where
  | CONTINUOUS : RangingMode
  | AUTONOMOUS : RangingMode
  deriving DecidableEq

/-- Numeric value of each RangingMode member, as bound in src/wrap.h. -/
def RangingMode.val : RangingMode → Nat
  | .CONTINUOUS => VL53L5CX_RANGING_MODE_CONTINUOUS
  | .AUTONOMOUS => VL53L5CX_RANGING_MODE_AUTONOMOUS

/-- enum PowerMode of src/wrap.h. -/
inductive PowerMode where
  | SLEEP : PowerMode
  | WAKEUP : PowerMode
  deriving DecidableEq

/-- Numeric value of each PowerMode member, as bound in src/wrap.h. -/
def PowerMode.val : PowerMode → Nat
  | .SLEEP => VL53L5CX_POWER_MODE_SLEEP
  | .WAKEUP => VL53L5CX_POWER_MODE_WAKEUP

/-! Fixed-width integer typedefs (src/fake/stdint.h).

The header typedefs int8_t = signed char, int16_t = short,
uint8_t = unsigned char, uint16_t = unsigned short, uint32_t = unsigned int,
and static-asserts each sizeof against its nominal value, so the build fails
on a mismatching target ABI. -/

/-- Sizes (in bytes) that a target ABI assigns to the C base types used by
the typedefs of src/fake/stdint.h. -/
structure Abi where
  signedCharSize : Nat
  shortSize : Nat
  unsignedCharSize : Nat
  unsignedShortSize : Nat
  unsignedIntSize : Nat

/-- The riscv32 target ABI the headers are written for (clang 18 per the
source comments): char 1 byte, short 2 bytes, int 4 bytes. -/
def targetAbi : Abi := ⟨1, 2, 1, 2, 4⟩

/-- sizeof(int8_t) under an ABI: int8_t is typedef-ed to signed char. -/
def sizeofInt8 (a : Abi) : Nat := a.signedCharSize

/-- sizeof(int16_t) under an ABI: int16_t is typedef-ed to short. -/
def sizeofInt16 (a : Abi) : Nat := a.shortSize

/-- sizeof(uint8_t) under an ABI: uint8_t is typedef-ed to unsigned char. -/
def sizeofUint8 (a : Abi) : Nat := a.unsignedCharSize

/-- sizeof(uint16_t) under an ABI: uint16_t is typedef-ed to unsigned short. -/
def sizeofUint16 (a : Abi) : Nat := a.unsignedShortSize

/-- sizeof(uint32_t) under an ABI: uint32_t is typedef-ed to unsigned int. -/
def sizeofUint32 (a : Abi) : Nat := a.unsignedIntSize

/-- The five _Static_assert checks of src/fake/stdint.h as one boolean
build-time check: the build of the header passes under an ABI exactly when
this evaluates to true. -/
def stdintBuildPasses (a : Abi) : Bool :=
  decide (sizeofInt8 a = 1) && decide (sizeofInt16 a = 2) &&
  decide (sizeofUint8 a = 1) && decide (sizeofUint16 a = 2) &&
  decide (sizeofUint32 a = 4)

/-! Helper lemmas. -/

theorem checkFits_iff (sz al : Nat) : checkFits sz al = true ↔ stateFits sz al := by
  simp [checkFits, stateFits]

theorem swapBuffer_cons4 (a b c d : Nat) (rest : List Nat) :
    swapBuffer (a :: b :: c :: d :: rest) = d :: c :: b :: a :: swapBuffer rest :=
  rfl

theorem swapBuffer_swapBuffer (l : List Nat) : swapBuffer (swapBuffer l) = l := by
  match l with
  | a :: b :: c :: d :: rest =>
      rw [swapBuffer_cons4, swapBuffer_cons4, swapBuffer_swapBuffer rest]
  | [] => rfl
  | [_] => rfl
  | [_, _] => rfl
  | [_, _, _] => rfl

theorem swapBuffer_group_getElem (k : Nat) : ∀ (buf : List Nat) (j : Nat), j < 4 →
    4 * k + 3 < buf.length →
    (swapBuffer buf)[4 * k + j]? = buf[4 * k + (3 - j)]? := by
  induction k with
  | zero =>
      intro buf j hj hk
      match buf with
      | [] => simp at hk
      | [_] => simp at hk
      | [_, _] => simp at hk
      | [_, _, _] => simp at hk
      | a :: b :: c :: d :: rest =>
          rw [swapBuffer_cons4]
          interval_cases j <;> simp
  | succ k ih =>
      intro buf j hj hk
      match buf with
      | [] => simp at hk
      | [_] => simp at hk
      | [_, _] => simp at hk; omega
      | [_, _, _] => simp at hk
      | a :: b :: c :: d :: rest =>
          have h1 : 4 * (k + 1) + j = (4 * k + j) + 1 + 1 + 1 + 1 := by omega
          have h2 : 4 * (k + 1) + (3 - j) = (4 * k + (3 - j)) + 1 + 1 + 1 + 1 := by
            omega
          have hk' : 4 * k + 3 < rest.length := by
            simp [List.length_cons] at hk; omega
          rw [swapBuffer_cons4, h1, h2]
          simp only [List.getElem?_cons_succ]
          exact ih rest j hj hk'

theorem rdFill_getElem_frame (dev : Nat → Nat) (addr size : Nat) (buf : List Nat)
    (i : Nat) (h : size ≤ i) :
    (rdFill dev addr size buf)[i]? = buf[i]? := by
  match size, buf with
  | 0, buf => rfl
  | s + 1, [] => rfl
  | s + 1, b :: rest =>
      cases i with
      | zero => omega
      | succ i =>
          simp only [rdFill, List.getElem?_cons_succ]
          exact rdFill_getElem_frame dev (addr + 1) s rest i (by omega)

theorem rdFill_zero (dev : Nat → Nat) (addr : Nat) (buf : List Nat) :
    rdFill dev addr 0 buf = buf :=
  rfl

theorem wrMulti_agree (dev : Nat → Nat) (addr size : Nat) (buf buf' : List Nat)
    (hagree : ∀ i, i < size → buf.getD i 0 = buf'.getD i 0) :
    wrMulti dev addr size buf = wrMulti dev addr size buf' := by
  unfold wrMulti
  simp only [Prod.mk.injEq, and_true]
  funext a
  by_cases hc : addr ≤ a ∧ a < addr + size
  · simp only [hc, if_pos]
    exact hagree (a - addr) (by omega)
  · simp only [hc, if_neg, not_false_iff]

/-! Claim theorems. -/

/-- C1: the platform handle type VL53L5CX_Platform is a fixed-capacity opaque
byte region of at least 20 bytes with 8-byte alignment, and the invariant
that a concrete platform-state's size fits the reserved capacity (and its
alignment does not exceed 8) is a build-time check: it is a closed boolean
computation (checkFits), evaluable during compilation, equivalent to the
sizing invariant. -/
theorem c1_platform_sizing_contract :
    20 ≤ platformSizeof ∧ platformAlign = 8 ∧
    (∀ sz al : Nat, checkFits sz al = true ↔ stateFits sz al) :=
  ⟨by decide, rfl, checkFits_iff⟩

/-- C2: for every buffer whose length is a multiple of 4, applying the
buffer-swap operation twice restores the original byte sequence. -/
theorem c2_swapBuffer_involution (buf : List Nat) (h : buf.length % 4 = 0) :
    swapBuffer (swapBuffer buf) = buf :=
  swapBuffer_swapBuffer buf

/-- Witness for C2 at the concrete 8-byte buffer [1,2,3,4,5,6,7,8]. -/
theorem c2_swapBuffer_involution_witness :
    [1, 2, 3, 4, 5, 6, 7, 8].length % 4 = 0 ∧
    swapBuffer (swapBuffer [1, 2, 3, 4, 5, 6, 7, 8]) = [1, 2, 3, 4, 5, 6, 7, 8] :=
  ⟨by decide, c2_swapBuffer_involution [1, 2, 3, 4, 5, 6, 7, 8] (by decide)⟩

/-- C3: for every buffer whose size is a multiple of 4, the buffer-swap
operation reverses the byte order within each independent 4-byte group
(the byte at relative offset 3 - j of group k ends at relative offset j),
and in particular the 12-byte buffer [1,...,12] becomes
[4,3,2,1,8,7,6,5,12,11,10,9]. -/
theorem c3_swapBuffer_group_reversal :
    (∀ (buf : List Nat) (k j : Nat), buf.length % 4 = 0 → j < 4 →
        4 * k + 3 < buf.length →
        (swapBuffer buf)[4 * k + j]? = buf[4 * k + (3 - j)]?) ∧
    swapBuffer [1, 2, 3, 4, 5, 6, 7, 8, 9, 10, 11, 12] =
      [4, 3, 2, 1, 8, 7, 6, 5, 12, 11, 10, 9] :=
  ⟨fun buf k j _ hj hk => swapBuffer_group_getElem k buf j hj hk, by decide⟩

/-- Witness for C3 at the concrete 4-byte buffer [1,2,3,4], group 0,
offset 1. -/
theorem c3_swapBuffer_group_reversal_witness :
    [1, 2, 3, 4].length % 4 = 0 ∧ (1 : Nat) < 4 ∧
    4 * 0 + 3 < [1, 2, 3, 4].length ∧
    (swapBuffer [1, 2, 3, 4])[4 * 0 + 1]? = [1, 2, 3, 4][4 * 0 + (3 - 1)]? :=
  ⟨by decide, by decide, by decide,
    c3_swapBuffer_group_reversal.1 [1, 2, 3, 4] 0 1 (by decide) (by decide)
      (by decide)⟩

/-- C4 counterexample: the claim says success, fatal and invalid-param are
all exported as named constants, but the INVALID_PARAM declaration in
src/wrap.h is commented out ("not passed"), so no constant named
INVALID_PARAM with value 127 is exported. -/
theorem c4_invalid_param_not_exported :
    ("INVALID_PARAM", (127 : Nat)) ∉ exportedStatusConstants := by
  decide

/-- C4 (amended): the layer exposes ST_OK = 0 and ST_ERROR = 255 unchanged
from the vendor values; the invalid-param value 127 appears in the
documented status table of src/wrap.h, but its constant INVALID_PARAM is
commented out in the source and is not exported under any value. -/
theorem c4_status_constants :
    ("ST_OK", VL53L5CX_STATUS_OK) ∈ exportedStatusConstants ∧
    ("ST_ERROR", VL53L5CX_STATUS_ERROR) ∈ exportedStatusConstants ∧
    VL53L5CX_STATUS_OK = 0 ∧ VL53L5CX_STATUS_ERROR = 255 ∧
    VL53L5CX_STATUS_INVALID_PARAM = 127 ∧
    documentedStatusValues = [0, 127, 255] ∧
    (∀ v : Nat, ("INVALID_PARAM", v) ∉ exportedStatusConstants) := by
  refine ⟨by decide, by decide, rfl, rfl, rfl, rfl, ?_⟩
  intro v hv
  simp [exportedStatusConstants, VL53L5CX_STATUS_OK, VL53L5CX_STATUS_ERROR] at hv

/-- Witness for C4 (amended) at the concrete value 127. -/
theorem c4_status_constants_witness :
    ("INVALID_PARAM", (127 : Nat)) ∉ exportedStatusConstants :=
  c4_status_constants.2.2.2.2.2.2 127

/-- C5: the exported configuration enums carry exactly the vendor numeric
values (Resolution 16/64, TargetOrder 1/2, RangingMode 1/3, PowerMode 0/1),
and each enum is a closed two-member set of 8-bit values. -/
theorem c5_enum_vendor_values :
    Resolution._4X4.val = VL53L5CX_RESOLUTION_4X4 ∧ Resolution._4X4.val = 16 ∧
    Resolution._8X8.val = VL53L5CX_RESOLUTION_8X8 ∧ Resolution._8X8.val = 64 ∧
    TargetOrder.CLOSEST.val = VL53L5CX_TARGET_ORDER_CLOSEST ∧
    TargetOrder.CLOSEST.val = 1 ∧
    TargetOrder.STRONGEST.val = VL53L5CX_TARGET_ORDER_STRONGEST ∧
    TargetOrder.STRONGEST.val = 2 ∧
    RangingMode.CONTINUOUS.val = VL53L5CX_RANGING_MODE_CONTINUOUS ∧
    RangingMode.CONTINUOUS.val = 1 ∧
    RangingMode.AUTONOMOUS.val = VL53L5CX_RANGING_MODE_AUTONOMOUS ∧
    RangingMode.AUTONOMOUS.val = 3 ∧
    PowerMode.SLEEP.val = VL53L5CX_POWER_MODE_SLEEP ∧
    PowerMode.SLEEP.val = 0 ∧
    PowerMode.WAKEUP.val = VL53L5CX_POWER_MODE_WAKEUP ∧
    PowerMode.WAKEUP.val = 1 ∧
    (∀ r : Resolution, (r = ._4X4 ∨ r = ._8X8) ∧ r.val < 256) ∧
    (∀ t : TargetOrder, (t = .CLOSEST ∨ t = .STRONGEST) ∧ t.val < 256) ∧
    (∀ m : RangingMode, (m = .CONTINUOUS ∨ m = .AUTONOMOUS) ∧ m.val < 256) ∧
    (∀ p : PowerMode, (p = .SLEEP ∨ p = .WAKEUP) ∧ p.val < 256) := by
  refine ⟨rfl, rfl, rfl, rfl, rfl, rfl, rfl, rfl, rfl, rfl, rfl, rfl, rfl, rfl,
    rfl, rfl, ?_, ?_, ?_, ?_⟩
  · intro r; cases r <;> exact ⟨by simp, by decide⟩
  · intro t; cases t <;> exact ⟨by simp, by decide⟩
  · intro m; cases m <;> exact ⟨by simp, by decide⟩
  · intro p; cases p <;> exact ⟨by simp, by decide⟩

/-- C6: the six callback signatures use exactly the mandated widths — a
16-bit register address (argument 1 of the four register operations), a
32-bit size for the multi-byte transfers (argument 3 of RdMulti/WrMulti),
a 32-bit milliseconds argument, and an 8-bit status return — and each takes
a pointer to the platform handle as first argument except buffer-swap,
which takes no handle argument at all. -/
theorem c6_callback_signature_widths :
    rdByteSig.args[1]? = some CType.u16 ∧
    wrByteSig.args[1]? = some CType.u16 ∧
    rdMultiSig.args[1]? = some CType.u16 ∧
    wrMultiSig.args[1]? = some CType.u16 ∧
    CType.u16.width = 16 ∧
    rdMultiSig.args[3]? = some CType.u32 ∧
    wrMultiSig.args[3]? = some CType.u32 ∧
    waitMsSig.args[1]? = some CType.u32 ∧
    CType.u32.width = 32 ∧
    rdByteSig.ret = CType.u8 ∧ wrByteSig.ret = CType.u8 ∧
    rdMultiSig.ret = CType.u8 ∧ wrMultiSig.ret = CType.u8 ∧
    waitMsSig.ret = CType.u8 ∧ CType.u8.width = 8 ∧
    rdByteSig.args[0]? = some (CType.ptr CType.platform) ∧
    wrByteSig.args[0]? = some (CType.ptr CType.platform) ∧
    rdMultiSig.args[0]? = some (CType.ptr CType.platform) ∧
    wrMultiSig.args[0]? = some (CType.ptr CType.platform) ∧
    waitMsSig.args[0]? = some (CType.ptr CType.platform) ∧
    CType.ptr CType.platform ∉ swapBufferSig.args ∧
    CType.platform ∉ swapBufferSig.args := by
  decide

/-- C7: read-multiple and write-multiple touch at most size bytes of the
caller-supplied buffer — read-multiple leaves every byte at index ≥ size
unchanged, write-multiple's result depends only on the first size bytes of
the buffer — and with size 0 both are no-ops returning status 0. -/
theorem c7_multi_frame_effect :
    (∀ (dev : Nat → Nat) (addr size i : Nat) (buf : List Nat), size ≤ i →
        ((rdMulti dev addr size buf).1)[i]? = buf[i]?) ∧
    (∀ (dev : Nat → Nat) (addr : Nat) (buf : List Nat),
        rdMulti dev addr 0 buf = (buf, 0)) ∧
    (∀ (dev : Nat → Nat) (addr size : Nat) (buf buf' : List Nat),
        (∀ i, i < size → buf.getD i 0 = buf'.getD i 0) →
        wrMulti dev addr size buf = wrMulti dev addr size buf') ∧
    (∀ (dev : Nat → Nat) (addr : Nat) (buf : List Nat),
        wrMulti dev addr 0 buf = (dev, 0)) := by
  refine ⟨?_, ?_, ?_, ?_⟩
  · intro dev addr size i buf h
    exact rdFill_getElem_frame dev addr size buf i h
  · intro dev addr buf
    rfl
  · intro dev addr size buf buf' hagree
    exact wrMulti_agree dev addr size buf buf' hagree
  · intro dev addr buf
    unfold wrMulti
    simp only [Prod.mk.injEq, and_true]
    funext a
    have : ¬(addr ≤ a ∧ a < addr + 0) := by omega
    simp [this]

/-- Witness for C7: read-multiple of 2 bytes into a 3-byte buffer leaves the
byte at index 2 unchanged. -/
theorem c7_multi_frame_effect_witness :
    (2 : Nat) ≤ 2 ∧
    ((rdMulti (fun _ => 9) 5 2 [1, 2, 3]).1)[2]? = [1, 2, 3][2]? :=
  ⟨by decide, c7_multi_frame_effect.1 (fun _ => 9) 5 2 2 [1, 2, 3] (by decide)⟩

/-- C8: the wait-milliseconds operation called with 0 returns immediately
(the clock does not advance) with status 0; for any input the clock on
return has advanced by at least the requested duration, and the returned
status is 0, the wait having finished. -/
theorem c8_waitMs_contract :
    (∀ t : Nat, waitMs t 0 = (t, 0)) ∧
    (∀ t ms : Nat, t + ms ≤ (waitMs t ms).1 ∧ (waitMs t ms).2 = 0) :=
  ⟨fun _ => rfl, fun t ms => ⟨Nat.le_refl (t + ms), rfl⟩⟩

/-- C9: sizeof(VL53L5CX_Platform) is the 20-byte array padded to 24 bytes,
the next multiple of the 8-byte alignment, so any concrete platform state
of size up to 24 bytes (alignment up to 8) fits the reserved region. -/
theorem c9_platform_padded_to_24 :
    platformSizeof = 24 ∧ platformSizeof = roundUp 20 8 ∧
    platformSizeof % platformAlign = 0 ∧
    (∀ sz al : Nat, sz ≤ 24 → al ≤ 8 → stateFits sz al) := by
  refine ⟨by decide, by decide, by decide, ?_⟩
  intro sz al hsz hal
  exact ⟨by rw [show platformSizeof = 24 from by decide]; omega,
    by rw [show platformAlign = 8 from rfl]; omega⟩

/-- Witness for C9 at the concrete state size 24 (full padded region) and
alignment 8. -/
theorem c9_platform_padded_to_24_witness :
    (24 : Nat) ≤ 24 ∧ (8 : Nat) ≤ 8 ∧ stateFits 24 8 :=
  ⟨by decide, by decide, c9_platform_padded_to_24.2.2.2 24 8 (by decide) (by decide)⟩

/-- C10: on the target ABI the fixed-width typedefs of src/fake/stdint.h have
exactly their nominal sizes (int8_t 1, int16_t 2, uint8_t 1, uint16_t 2,
uint32_t 4), and the static assertions make the build of the header pass
under an ABI precisely when all five sizes are nominal, so a mismatching
ABI fails the build. -/
theorem c10_stdint_static_asserts :
    sizeofInt8 targetAbi = 1 ∧ sizeofInt16 targetAbi = 2 ∧
    sizeofUint8 targetAbi = 1 ∧ sizeofUint16 targetAbi = 2 ∧
    sizeofUint32 targetAbi = 4 ∧ stdintBuildPasses targetAbi = true ∧
    (∀ a : Abi, stdintBuildPasses a = true ↔
      (sizeofInt8 a = 1 ∧ sizeofInt16 a = 2 ∧ sizeofUint8 a = 1 ∧
       sizeofUint16 a = 2 ∧ sizeofUint32 a = 4)) := by
  refine ⟨rfl, rfl, rfl, rfl, rfl, by decide, ?_⟩
  intro a
  simp [stdintBuildPasses, and_assoc]

end VL53L5CX
